import Mathlib

/-!
Shallow embedding of `src/telegram_client.py` (class `TelegramSearchClient`
and the `main` command surface).  Pure Python logic becomes Lean functions;
the external Telethon client is modelled by scripted inputs: the dialog
listing, each dialog's per-conversation search outcome, and the saved-messages
iteration stream are parameters of the embedded operations.  Timestamps are
naive (timezone-stripped) microsecond counts, matching the comparisons the
code performs after `message.date.replace(tzinfo=None)`.
-/

set_option maxRecDepth 4000

namespace TelegramClient

/-- A `datetime` value as the scraper sees it: `naive` is the
timezone-stripped value in microseconds since 1970-01-01 00:00:00 (what the
comparisons at lines 133-146 act on), `iso` is the `isoformat()` rendering
copied verbatim into output records. -/
structure DateTime where
  naive : Int
  iso : String
deriving DecidableEq, Repr

/-- A Telethon message as consumed by this program: `text` is `None` or a
string, `date` is `None` or a datetime, `out` is the outgoing flag, `media`
is the media variant class name when media is present. -/
structure Message where
  id : Int
  text : Option String
  date : Option DateTime
  sender_id : Option Int
  out : Bool
  media : Option String
deriving DecidableEq, Repr

/-- One step of the saved-messages iteration (`async for message in
client.iter_messages(saved_messages_id, limit=None)`, line 131): either a
yielded item (`none` models a falsy item, which `if message and ...`
skips) or the iterator raising an exception with the given message. -/
inductive StreamItem where
  | msg : Option Message → StreamItem
  | raise : String → StreamItem
deriving DecidableEq, Repr

/-! Date parsing: `datetime.strptime(target_date, "%Y-%m-%d")` (line 114).
CPython compiles the format to the regex `\d\d\d\d-(1[0-2]|0[1-9]|[1-9])-
(3[01]|[12]\d|0[1-9]|[1-9])`, requires the whole string to match, and the
`datetime` constructor then validates the day against the month length and
the year against MINYEAR = 1. -/

/-- Split a character list at every '-' (the two literal separators of the
format string); mirrors how the compiled regex segments the input. -/
def splitDash (cs : List Char) : List (List Char) :=
  cs.foldr
    (fun c acc =>
      if c = '-' then [] :: acc
      else
        match acc with
        | g :: gs => (c :: g) :: gs
        | [] => [[c]])
    [[]]

/-- Numeric value of a digit string, as `int()` reads a matched group. -/
def parseNatDigits (cs : List Char) : Nat :=
  cs.foldl (fun n c => n * 10 + (c.toNat - 48)) 0

/-- True for leap years, Gregorian rule (as `datetime` validates days). -/
def isLeapYear (y : Nat) : Bool :=
  (y % 4 == 0 && y % 100 != 0) || y % 400 == 0

/-- Number of days in month `m` of year `y`. -/
def daysInMonth (y m : Nat) : Nat :=
  if m = 2 then (if isLeapYear y then 29 else 28)
  else if m = 4 ∨ m = 6 ∨ m = 9 ∨ m = 11 then 30
  else 31

/-- Embedding of `datetime.strptime(s, "%Y-%m-%d")`: `some (y, m, d)` when
the parse succeeds, `none` when it raises `ValueError`.  The year group is
exactly four digits, month and day are one or two digits in range (no "00"),
the whole string must be consumed, and the constructed date must be a real
calendar date with year at least 1. -/
def strptimeDate (s : String) : Option (Nat × Nat × Nat) :=
  match splitDash s.data with
  | [ys, ms, ds] =>
    if (ys.length = 4 ∧ ys.all Char.isDigit)
        ∧ ((ms.length = 1 ∨ ms.length = 2) ∧ ms.all Char.isDigit)
        ∧ ((ds.length = 1 ∨ ds.length = 2) ∧ ds.all Char.isDigit) then
      if 1 ≤ parseNatDigits ys ∧ 1 ≤ parseNatDigits ms
          ∧ parseNatDigits ms ≤ 12 ∧ 1 ≤ parseNatDigits ds
          ∧ parseNatDigits ds ≤ daysInMonth (parseNatDigits ys) (parseNatDigits ms) then
        some (parseNatDigits ys, parseNatDigits ms, parseNatDigits ds)
      else none
    else none
  | _ => none

/-- Days from 1970-01-01 to civil date `y-m-d`, via the standard
era/year-of-era decomposition (all intermediate values are nonnegative for
the years `strptimeDate` can produce, so `Nat` arithmetic is exact). -/
def daysFromCivilNat (y m d : Nat) : Nat :=
  let yAdj := if m ≤ 2 then y - 1 else y
  let era := yAdj / 400
  let yoe := yAdj % 400
  let mp := (m + 9) % 12
  let doy := (153 * mp + 2) / 5 + d - 1
  era * 146097 + yoe * 365 + yoe / 4 - yoe / 100 + doy

/-- Signed day count from the epoch (1970-01-01 is day 0). -/
def daysFromCivil (y m d : Nat) : Int :=
  (daysFromCivilNat y m d : Int) - 719468

/-- Naive microsecond value of `date_obj.replace(hour=0, minute=0, second=0,
microsecond=0)` (line 115). -/
def startOfDayMicros (y m d : Nat) : Int :=
  daysFromCivil y m d * 86400000000

/-- Naive microsecond value of `date_obj.replace(hour=23, minute=59,
second=59, microsecond=999999)` (line 116): the last microsecond of the day. -/
def endOfDayMicros (y m d : Nat) : Int :=
  startOfDayMicros y m d + 86399999999

/-- One output record of the scraper (the dict built at lines 137-143). -/
structure ScrapeRecord where
  message_id : Int
  text : String
  date : String
  is_read : Bool
  media_type : Option String
deriving DecidableEq, Repr

/-- Record built for an in-window message: `text` is `message.text or ""`,
`date` is `message.date.isoformat()`, `is_read` is `not message.out`,
`media_type` is the media class name when media is present. -/
def toScrapeRecord (m : Message) (dt : DateTime) : ScrapeRecord :=
  { message_id := m.id
  , text := m.text.getD ""
  , date := dt.iso
  , is_read := !m.out
  , media_type := m.media }

/-- The record, if any, that one stream item contributes to the result list
of a scrape with window `[s, e]`: present exactly when the item is a message
carrying a date whose naive value lies in the inclusive window. -/
def scrapeEmit (s e : Int) : StreamItem → Option ScrapeRecord
  | StreamItem.msg (some m) =>
    match m.date with
    | some dt =>
        if s ≤ dt.naive ∧ dt.naive ≤ e then some (toScrapeRecord m dt) else none
    | none => none
  | _ => none

/-- The `async for` loop of `scrape_saved_messages` (lines 131-147) over a
scripted stream, with window `[s, e]`.  Returns the accumulated records (or
the exception message if the iteration raised) together with the number of
stream items consumed.  A falsy or dateless item is skipped; an in-window
item is appended; an item strictly below `s` stops the loop. -/
def scrapeLoop (s e : Int) : List StreamItem → Except String (List ScrapeRecord) × Nat
  | [] => (Except.ok [], 0)
  | StreamItem.raise emsg :: _ => (Except.error emsg, 1)
  | StreamItem.msg none :: rest =>
      ((scrapeLoop s e rest).1, (scrapeLoop s e rest).2 + 1)
  | StreamItem.msg (some m) :: rest =>
      match m.date with
      | none => ((scrapeLoop s e rest).1, (scrapeLoop s e rest).2 + 1)
      | some dt =>
          if dt.naive < s then
            (Except.ok (if s ≤ dt.naive ∧ dt.naive ≤ e then [toScrapeRecord m dt] else []), 1)
          else
            (match (scrapeLoop s e rest).1 with
             | Except.ok l =>
                 Except.ok
                   ((if s ≤ dt.naive ∧ dt.naive ≤ e then [toScrapeRecord m dt] else []) ++ l)
             | Except.error emsg => Except.error emsg,
             (scrapeLoop s e rest).2 + 1)

/-- Result envelope of `scrape_saved_messages`: the success dict with keys
`date`, `results`, `total`, or an error dict with keys `error`, `results`. -/
inductive ScrapeResult where
  | ok (date : String) (results : List ScrapeRecord) (total : Nat)
  | failure (error : String) (results : List ScrapeRecord)
deriving DecidableEq, Repr

/-- Embedding of `scrape_saved_messages` (lines 101-158) applied to a
scripted saved-messages stream.  The second component instruments how many
stream items the call consumed.  An unparsable date returns the fixed error
envelope before touching the stream; an exception during iteration returns
an error envelope that discards every accumulated record. -/
def scrape_saved_messages (target_date : String) (stream : List StreamItem) :
    ScrapeResult × Nat :=
  match strptimeDate target_date with
  | none => (ScrapeResult.failure "Invalid date format. Use YYYY-MM-DD" [], 0)
  | some (y, mo, d) =>
      match scrapeLoop (startOfDayMicros y mo d) (endOfDayMicros y mo d) stream with
      | (Except.ok results, n) => (ScrapeResult.ok target_date results results.length, n)
      | (Except.error emsg, n) =>
          (ScrapeResult.failure ("Failed to scrape Saved Messages: " ++ emsg) [], n)

/-! Search: `search_global` (lines 57-99). -/

/-- A dialog as listed by `get_dialogs()`: its id, its title (`""` models a
falsy/absent title, which the `dialog.title or ...` default replaces), and
the scripted outcome of `iter_messages(dialog.entity, search=query,
limit=100)` for a given query: either the yielded messages (each possibly
falsy) or an exception message. -/
structure Dialog where
  id : Int
  title : String
  searchOutcome : String → Except String (List (Option Message))

/-- The messages the per-conversation search yields for `d` on `query`
(empty when the search raises). -/
def searchMsgs (query : String) (d : Dialog) : List (Option Message) :=
  match d.searchOutcome query with
  | Except.ok msgs => msgs
  | Except.error _ => []

/-- Whether the per-conversation search for `d` on `query` succeeds. -/
def outcomeOk (query : String) (d : Dialog) : Bool :=
  match d.searchOutcome query with
  | Except.ok _ => true
  | Except.error _ => false

/-- One output record of the search (the dict built at lines 87-94). -/
structure MatchRecord where
  chat_id : Int
  chat_title : String
  message_id : Int
  text : String
  date : Option String
  sender_id : Option Int
deriving DecidableEq, Repr

/-- The `chat_title` value: `dialog.title or f"Chat {dialog.id}"` (line 80);
an empty (falsy) title falls back to the synthesized name. -/
def chatTitleOf (d : Dialog) : String :=
  if d.title.isEmpty then "Chat " ++ toString d.id else d.title

/-- First `n` code points of `t`: the Python slice `t[:n]` (a Python `str`
is a sequence of code points, as is `String.data`). -/
def sliceTo (n : Nat) (t : String) : String :=
  String.mk (t.data.take n)

/-- Record built for a matching message with non-empty text `t`: `text` is
`message.text[:500]`, `date` is `message.date.isoformat()` when the date is
present, else `None`. -/
def toMatchRecord (d : Dialog) (m : Message) (t : String) : MatchRecord :=
  { chat_id := d.id
  , chat_title := chatTitleOf d
  , message_id := m.id
  , text := sliceTo 500 t
  , date := m.date.map DateTime.iso
  , sender_id := m.sender_id }

/-- The record, if any, one yielded item contributes: present exactly when
the item is a message with non-`None`, non-empty text (the guard
`if message and message.text` at line 86). -/
def matchOf (d : Dialog) : Option Message → Option MatchRecord
  | some m =>
    match m.text with
    | some t => if t.isEmpty then none else some (toMatchRecord d m t)
    | none => none
  | none => none

/-- The records one dialog contributes to the overall result list: none at
all when its per-conversation search raises (the `except ... pass` at lines
95-97), else one per matching message with non-empty text. -/
def dialogMatches (query : String) (d : Dialog) : List MatchRecord :=
  match d.searchOutcome query with
  | Except.error _ => []
  | Except.ok msgs => msgs.filterMap (matchOf d)

/-- Result envelope of `search_global`: the success dict with keys `query`,
`results`, `total`, or the not-found error dict with keys `error`, `results`. -/
inductive SearchResult where
  | ok (query : String) (results : List MatchRecord) (total : Nat)
  | failure (error : String) (results : List MatchRecord)
deriving DecidableEq, Repr

/-- Python truthiness of the optional `chat_id` argument (`if chat_id:`,
line 70): true exactly for a present, nonzero id. -/
def chatIdTruthy : Option Int → Bool
  | none => false
  | some c => c != 0

/-- Embedding of `search_global` (lines 57-99) applied to the scripted
dialog listing.  The second component instruments how many per-conversation
search operations were invoked (one per dialog iterated by the loop at line
79).  A truthy `chat_id` restricts to the dialogs with that id and fails
with the not-found envelope when none match, before any search runs. -/
def search_global (query : String) (chat_id : Option Int) (allDialogs : List Dialog) :
    SearchResult × Nat :=
  if chatIdTruthy chat_id then
    if (allDialogs.filter (fun d => d.id == chat_id.getD 0)).isEmpty then
      (SearchResult.failure ("Chat ID " ++ toString (chat_id.getD 0) ++ " not found") [], 0)
    else
      (SearchResult.ok query
        ((allDialogs.filter (fun d => d.id == chat_id.getD 0)).map (dialogMatches query)).flatten
        (((allDialogs.filter (fun d => d.id == chat_id.getD 0)).map (dialogMatches query)).flatten.length),
       (allDialogs.filter (fun d => d.id == chat_id.getD 0)).length)
  else
    (SearchResult.ok query ((allDialogs.map (dialogMatches query)).flatten)
      ((allDialogs.map (dialogMatches query)).flatten.length),
     allDialogs.length)

/-! Command surface: `main` (lines 172-251), modelled as the trace of
external-client calls a run produces together with the process exit code. -/

/-- Calls made on the external Telethon client. -/
inductive ExtCall where
  | startSession
  | getMe
  | getDialogs
  | iterMessages
  | disconnect
deriving DecidableEq, Repr

/-- How a step of the `try` body ends: completes, raises
`KeyboardInterrupt`, or raises some other exception. -/
inductive BodyOutcome where
  | ok
  | interrupt
  | exc (emsg : String)
deriving DecidableEq, Repr

/-- Which mutually exclusive action the argument dispatch selects
(lines 217-239). -/
inductive Action where
  | auth
  | whoami
  | searchCmd
  | scrapeSaved
  | help
deriving DecidableEq, Repr

/-- External calls the selected action makes when it runs to completion:
`--auth` and `--whoami` call `get_me`; `--search` calls `get_dialogs` and
then one `iter_messages` per dialog iterated (`k` of them); `--scrape-saved`
calls `get_me` and then `iter_messages` (none at all when the date string is
invalid, covered by taking a prefix); the help branch calls nothing.  No
action ever calls `disconnect`. -/
def dispatchFullCalls : Action → Nat → List ExtCall
  | Action.auth, _ => [ExtCall.getMe]
  | Action.whoami, _ => [ExtCall.getMe]
  | Action.searchCmd, k => ExtCall.getDialogs :: List.replicate k ExtCall.iterMessages
  | Action.scrapeSaved, _ => [ExtCall.getMe, ExtCall.iterMessages]
  | Action.help, _ => []

/-- One run of `main` after the client wrapper is constructed (line 212):
`connect` is the outcome of `client.connect()` (the wrapper assigns the
client handle at line 39 before awaiting `start()`, so the handle is set on
every path through the `try` block); when it completes, the selected action
runs and ends with outcome `o`, having made its first `j` calls if it was
cut short by an exception or interrupt.  The `finally` block (line 251)
runs `client.disconnect()`, which invokes the external disconnect because
the handle is set (lines 52-55).  The `except KeyboardInterrupt` handler
exits 0, the `except Exception` handler exits 1 (lines 241-249). -/
def mainRun (connect : BodyOutcome) (a : Action) (k j : Nat) (o : BodyOutcome) :
    Nat × List ExtCall :=
  match connect with
  | BodyOutcome.ok =>
      (match o with
       | BodyOutcome.ok => 0
       | BodyOutcome.interrupt => 0
       | BodyOutcome.exc _ => 1,
       ExtCall.startSession ::
         (match o with
          | BodyOutcome.ok => dispatchFullCalls a k
          | _ => (dispatchFullCalls a k).take j) ++ [ExtCall.disconnect])
  | BodyOutcome.interrupt => (0, [ExtCall.startSession, ExtCall.disconnect])
  | BodyOutcome.exc _ => (1, [ExtCall.startSession, ExtCall.disconnect])

/-- Whether the scrape loop consumes this stream item and moves on to the
next one: false for a raising step, true for a falsy or dateless item, and
for a dated message exactly when its naive timestamp is not below the window
start (below-start items stop the loop). -/
def scrapeConsumes (s : Int) : StreamItem → Bool
  | StreamItem.raise _ => false
  | StreamItem.msg none => true
  | StreamItem.msg (some m) =>
      match m.date with
      | none => true
      | some dt => decide (s ≤ dt.naive)

/-- The message-and-text pair of a yielded search item that passes the
`if message and message.text` guard: a present message with present,
non-empty text. -/
def goodText : Option Message → Option (Message × String)
  | some m =>
    match m.text with
    | some t => if t.isEmpty then none else some (m, t)
    | none => none
  | none => none

/-! Concrete fixtures used by witness theorems. -/

/-- A plain text message with the given id and naive timestamp. -/
def msgAt (i naive : Int) : Message :=
  { id := i, text := some "hello", date := some ⟨naive, "ts"⟩
  , sender_id := some 7, out := true, media := none }

/-- Newest-first prefix of the C1 stream: one message a day above the
window, then two inside the 1970-01-01 window. -/
def c1Pre : List StreamItem :=
  [ StreamItem.msg (some (msgAt 5 86400000000))
  , StreamItem.msg (some (msgAt 4 0))
  , StreamItem.msg (some (msgAt 3 43200000000)) ]

/-- Stream with messages exactly at the first and last microsecond of
1970-01-01, then one below the window. -/
def c2Stream : List StreamItem :=
  [ StreamItem.msg (some (msgAt 1 0))
  , StreamItem.msg (some (msgAt 2 86399999999))
  , StreamItem.msg (some (msgAt 3 (-5))) ]

/-- The two boundary records the C2 stream produces. -/
def c2Results : List ScrapeRecord :=
  [ toScrapeRecord (msgAt 1 0) ⟨0, "ts"⟩
  , toScrapeRecord (msgAt 2 86399999999) ⟨86399999999, "ts"⟩ ]

/-- A dialog whose search yields two matching messages. -/
def c6Dialog : Dialog :=
  { id := 3, title := "t"
  , searchOutcome := fun _ => Except.ok [some (msgAt 1 0), some (msgAt 2 5)] }

/-- The records the C6 dialog contributes. -/
def c6Records : List MatchRecord :=
  [ toMatchRecord c6Dialog (msgAt 1 0) "hello"
  , toMatchRecord c6Dialog (msgAt 2 5) "hello" ]

/-! Helper lemmas. -/

/-- The structural slice agrees with `String.take`: both are the first `n`
characters. -/
theorem sliceTo_eq_take (n : Nat) (t : String) : sliceTo n t = t.take n := by
  apply String.ext
  rw [String.data_take]
  rfl

/-- A successful scrape loop returns exactly the in-window records of the
consumed prefix of the stream, in stream order. -/
theorem scrapeLoop_ok_eq (s e : Int) :
    ∀ (stream : List StreamItem) (results : List ScrapeRecord) (n : Nat),
      scrapeLoop s e stream = (Except.ok results, n) →
      results = (stream.take n).filterMap (scrapeEmit s e) := by
  intro stream
  induction stream with
  | nil =>
    intro results n h
    simp only [scrapeLoop, Prod.mk.injEq, Except.ok.injEq] at h
    obtain ⟨rfl, rfl⟩ := h
    simp
  | cons it rest ih =>
    intro results n h
    cases it with
    | raise emsg => simp [scrapeLoop] at h
    | msg om =>
      cases om with
      | none =>
        rcases hrec : scrapeLoop s e rest with ⟨r, nr⟩
        simp only [scrapeLoop, hrec, Prod.mk.injEq] at h
        obtain ⟨rfl, rfl⟩ := h
        have hr := ih results nr hrec
        simp [List.take_succ_cons, List.filterMap_cons, scrapeEmit, hr]
      | some m =>
        rcases hd : m.date with _ | dt
        · rcases hrec : scrapeLoop s e rest with ⟨r, nr⟩
          simp only [scrapeLoop, hd, hrec, Prod.mk.injEq] at h
          obtain ⟨rfl, rfl⟩ := h
          have hr := ih results nr hrec
          simp [List.take_succ_cons, List.filterMap_cons, scrapeEmit, hd, hr]
        · by_cases hlt : dt.naive < s
          · have hni : ¬(s ≤ dt.naive ∧ dt.naive ≤ e) := by omega
            simp only [scrapeLoop, hd, if_pos hlt, if_neg hni, Prod.mk.injEq,
              Except.ok.injEq] at h
            obtain ⟨rfl, rfl⟩ := h
            simp [List.take_succ_cons, List.filterMap_cons, scrapeEmit, hd, hni]
          · rcases hrec : scrapeLoop s e rest with ⟨r, nr⟩
            cases r with
            | error em => simp [scrapeLoop, hd, if_neg hlt, hrec] at h
            | ok l =>
              simp only [scrapeLoop, hd, if_neg hlt, hrec, Prod.mk.injEq,
                Except.ok.injEq] at h
              obtain ⟨rfl, rfl⟩ := h
              have hl := ih l nr hrec
              by_cases hc : s ≤ dt.naive ∧ dt.naive ≤ e
              · simp [List.take_succ_cons, List.filterMap_cons, scrapeEmit, hd,
                  if_pos hc, hl]
              · simp [List.take_succ_cons, List.filterMap_cons, scrapeEmit, hd,
                  if_neg hc, hl]

/-- The scrape loop stops at the first dated message below the window start:
it consumes the prefix and that one message, emits only the in-window
records of the prefix, and never touches the tail. -/
theorem scrapeLoop_break (s e : Int) (m : Message) (dt : DateTime)
    (post : List StreamItem) (hm : m.date = some dt) (hlt : dt.naive < s) :
    ∀ pre : List StreamItem,
      (∀ it ∈ pre, ∃ m' dt', it = StreamItem.msg (some m') ∧ m'.date = some dt'
          ∧ s ≤ dt'.naive) →
      scrapeLoop s e (pre ++ StreamItem.msg (some m) :: post)
        = (Except.ok (pre.filterMap (scrapeEmit s e)), pre.length + 1) := by
  intro pre
  induction pre with
  | nil =>
    intro _
    have hni : ¬(s ≤ dt.naive ∧ dt.naive ≤ e) := by omega
    simp [scrapeLoop, hm, if_pos hlt, if_neg hni]
  | cons it pre ih =>
    intro hpre
    obtain ⟨m', dt', rfl, hd', hge⟩ := hpre _ (List.mem_cons_self _ _)
    have hrec := ih (fun x hx => hpre x (List.mem_cons_of_mem _ hx))
    have hnlt : ¬(dt'.naive < s) := by omega
    simp only [List.cons_append, scrapeLoop, hd', if_neg hnlt, hrec,
      List.filterMap_cons, scrapeEmit, List.length_cons]
    by_cases hc : s ≤ dt'.naive ∧ dt'.naive ≤ e
    · simp [if_pos hc, hrec]
    · simp [if_neg hc, hrec]

/-- The scrape loop aborts at the first raising step, consuming the prefix
and the raising step and discarding the records of the prefix. -/
theorem scrapeLoop_raise_eq (s e : Int) (emsg : String) (post : List StreamItem) :
    ∀ pre : List StreamItem,
      (∀ it ∈ pre, scrapeConsumes s it = true) →
      scrapeLoop s e (pre ++ StreamItem.raise emsg :: post)
        = (Except.error emsg, pre.length + 1) := by
  intro pre
  induction pre with
  | nil => intro _; simp [scrapeLoop]
  | cons it pre ih =>
    intro hpre
    have hhead := hpre _ (List.mem_cons_self _ _)
    have hrec := ih (fun x hx => hpre x (List.mem_cons_of_mem _ hx))
    cases it with
    | raise e' => simp [scrapeConsumes] at hhead
    | msg om =>
      cases om with
      | none => simp [List.cons_append, scrapeLoop, hrec]
      | some m =>
        rcases hd : m.date with _ | dt
        · simp [List.cons_append, scrapeLoop, hd, hrec]
        · have hge : s ≤ dt.naive := by
            simpa [scrapeConsumes, hd] using hhead
          have hnlt : ¬(dt.naive < s) := by omega
          simp [List.cons_append, scrapeLoop, hd, if_neg hnlt, hrec]

/-! Claim theorems. -/

/-- C1: on a stream whose prefix `pre` holds only messages dated at or above
the window start, followed by a message dated strictly below the start,
`scrape_saved_messages` consumes exactly `pre` and that one message (nothing
of the tail `post`), does not emit the below-start message, and emits
exactly the in-window records of `pre` — so earlier above-window messages
are skipped without emitting and without stopping. -/
theorem scrape_early_exit
    (date : String) (y mo d : Nat) (pre post : List StreamItem)
    (m : Message) (dt : DateTime)
    (hp : strptimeDate date = some (y, mo, d))
    (hm : m.date = some dt)
    (hlt : dt.naive < startOfDayMicros y mo d)
    (hpre : ∀ it ∈ pre, ∃ m' dt', it = StreamItem.msg (some m') ∧ m'.date = some dt'
        ∧ startOfDayMicros y mo d ≤ dt'.naive) :
    scrape_saved_messages date (pre ++ StreamItem.msg (some m) :: post)
      = (ScrapeResult.ok date
          (pre.filterMap (scrapeEmit (startOfDayMicros y mo d) (endOfDayMicros y mo d)))
          (pre.filterMap (scrapeEmit (startOfDayMicros y mo d) (endOfDayMicros y mo d))).length,
        pre.length + 1) := by
  have hloop := scrapeLoop_break (startOfDayMicros y mo d) (endOfDayMicros y mo d)
    m dt post hm hlt pre hpre
  simp [scrape_saved_messages, hp, hloop]

/-- C1 witness: on the newest-first stream with naive timestamps a day
above, twice inside, and twice below the 1970-01-01 window, the scrape
returns exactly the two in-window records and consumes only four of the
five items. -/
theorem scrape_early_exit_witness :
    scrape_saved_messages "1970-01-01"
        (c1Pre ++ StreamItem.msg (some (msgAt 2 (-1))) :: [StreamItem.msg (some (msgAt 1 (-2)))])
      = (ScrapeResult.ok "1970-01-01"
          [toScrapeRecord (msgAt 4 0) ⟨0, "ts"⟩,
           toScrapeRecord (msgAt 3 43200000000) ⟨43200000000, "ts"⟩] 2, 4) := by
  have h := scrape_early_exit "1970-01-01" 1970 1 1 c1Pre
    [StreamItem.msg (some (msgAt 1 (-2)))] (msgAt 2 (-1)) ⟨-1, "ts"⟩
    (by decide) rfl (by decide)
    (by
      intro it hit
      simp only [c1Pre, List.mem_cons, List.not_mem_nil, or_false] at hit
      rcases hit with rfl | rfl | rfl
      · exact ⟨msgAt 5 86400000000, ⟨86400000000, "ts"⟩, rfl, rfl, by decide⟩
      · exact ⟨msgAt 4 0, ⟨0, "ts"⟩, rfl, rfl, by decide⟩
      · exact ⟨msgAt 3 43200000000, ⟨43200000000, "ts"⟩, rfl, rfl, by decide⟩)
  exact h.trans (by decide)

/-- C2: a successful scrape over any stream returns exactly one record per
consumed message whose naive timestamp lies in the inclusive window from
`startOfDayMicros` to `endOfDayMicros`, in stream order; in particular any
consumed message dated exactly at the window start or exactly at the window
end has its record in the results. -/
theorem scrape_window_exact
    (date : String) (y mo d : Nat) (stream : List StreamItem)
    (key : String) (results : List ScrapeRecord) (total n : Nat)
    (hp : strptimeDate date = some (y, mo, d))
    (hrun : scrape_saved_messages date stream = (ScrapeResult.ok key results total, n)) :
    results = (stream.take n).filterMap
        (scrapeEmit (startOfDayMicros y mo d) (endOfDayMicros y mo d))
    ∧ ∀ m dt, StreamItem.msg (some m) ∈ stream.take n → m.date = some dt →
        (dt.naive = startOfDayMicros y mo d ∨ dt.naive = endOfDayMicros y mo d) →
        toScrapeRecord m dt ∈ results := by
  rcases hloop : scrapeLoop (startOfDayMicros y mo d) (endOfDayMicros y mo d) stream
    with ⟨r, nr⟩
  cases r with
  | error em => simp [scrape_saved_messages, hp, hloop] at hrun
  | ok l =>
    simp only [scrape_saved_messages, hp, hloop, Prod.mk.injEq,
      ScrapeResult.ok.injEq] at hrun
    obtain ⟨⟨rfl, rfl, rfl⟩, rfl⟩ := hrun
    have heq := scrapeLoop_ok_eq (startOfDayMicros y mo d) (endOfDayMicros y mo d)
      stream l nr hloop
    refine ⟨heq, ?_⟩
    intro m dt hmem hdt hb
    rw [heq]
    apply List.mem_filterMap.mpr
    refine ⟨StreamItem.msg (some m), hmem, ?_⟩
    have hin : startOfDayMicros y mo d ≤ dt.naive ∧ dt.naive ≤ endOfDayMicros y mo d := by
      unfold endOfDayMicros
      rcases hb with hb | hb
      · omega
      · unfold endOfDayMicros at hb; omega
    simp [scrapeEmit, hdt, if_pos hin]

/-- C2 witness: in the concrete boundary stream, the messages dated exactly
at the first and exactly at the last microsecond of 1970-01-01 both have
their records in the scrape results. -/
theorem scrape_window_exact_witness :
    toScrapeRecord (msgAt 1 0) ⟨0, "ts"⟩ ∈ c2Results
    ∧ toScrapeRecord (msgAt 2 86399999999) ⟨86399999999, "ts"⟩ ∈ c2Results := by
  have h := scrape_window_exact "1970-01-01" 1970 1 1 c2Stream
    "1970-01-01" c2Results 2 3 (by decide) (by decide)
  exact ⟨h.2 (msgAt 1 0) ⟨0, "ts"⟩ (by decide) rfl (Or.inl (by decide)),
    h.2 (msgAt 2 86399999999) ⟨86399999999, "ts"⟩ (by decide) rfl (Or.inr (by decide))⟩

/-- C3: if the iteration raises after a prefix of consumed (non-stopping)
items, the scrape returns the error envelope carrying the exception message
with an empty results list — every record accumulated from the prefix is
discarded, and no partial-success envelope is produced. -/
theorem scrape_error_discards
    (date : String) (y mo d : Nat) (pre post : List StreamItem) (emsg : String)
    (hp : strptimeDate date = some (y, mo, d))
    (hpre : ∀ it ∈ pre, scrapeConsumes (startOfDayMicros y mo d) it = true) :
    scrape_saved_messages date (pre ++ StreamItem.raise emsg :: post)
      = (ScrapeResult.failure ("Failed to scrape Saved Messages: " ++ emsg) [],
        pre.length + 1) := by
  have hloop := scrapeLoop_raise_eq (startOfDayMicros y mo d) (endOfDayMicros y mo d)
    emsg post pre hpre
  simp [scrape_saved_messages, hp, hloop]

/-- C3 witness: an in-window message is consumed (a record is accumulated),
then the iterator raises `boom`; the envelope is the error envelope with
empty results. -/
theorem scrape_error_discards_witness :
    scrape_saved_messages "1970-01-01"
        [StreamItem.msg (some (msgAt 1 0)), StreamItem.raise "boom"]
      = (ScrapeResult.failure "Failed to scrape Saved Messages: boom" [], 2) := by
  have h := scrape_error_discards "1970-01-01" 1970 1 1
    [StreamItem.msg (some (msgAt 1 0))] [] "boom" (by decide) (by decide)
  exact h.trans (by decide)

/-- C8: when the date string does not parse as a strict `YYYY-MM-DD`
calendar date, the scrape returns exactly the fixed invalid-date error
envelope and consumes nothing from the stream (no iteration happens). -/
theorem scrape_invalid_date (date : String) (stream : List StreamItem)
    (hp : strptimeDate date = none) :
    scrape_saved_messages date stream
      = (ScrapeResult.failure "Invalid date format. Use YYYY-MM-DD" [], 0) := by
  simp [scrape_saved_messages, hp]

/-- C8 witness: `2024-13-40` has an out-of-range month and day, so the
scrape of a non-empty stream returns the invalid-date envelope without
consuming any item. -/
theorem scrape_invalid_date_witness :
    scrape_saved_messages "2024-13-40" [StreamItem.msg (some (msgAt 1 0))]
      = (ScrapeResult.failure "Invalid date format. Use YYYY-MM-DD" [], 0) :=
  scrape_invalid_date "2024-13-40" [StreamItem.msg (some (msgAt 1 0))] (by decide)

/-- A dialog whose per-conversation search raises contributes no records. -/
theorem dialogMatches_of_error (q : String) (d : Dialog)
    (h : outcomeOk q d = false) : dialogMatches q d = [] := by
  unfold outcomeOk at h
  unfold dialogMatches
  rcases hso : d.searchOutcome q with e | msgs
  · rfl
  · rw [hso] at h
    simp at h

/-- Dropping the failing dialogs does not change the concatenated results. -/
theorem flatten_filter_ok (q : String) (ds : List Dialog) :
    ((ds.filter (fun d => outcomeOk q d)).map (dialogMatches q)).flatten
      = (ds.map (dialogMatches q)).flatten := by
  induction ds with
  | nil => rfl
  | cons d ds ih =>
    by_cases h : outcomeOk q d
    · simp [List.filter_cons, h, ih]
    · rw [Bool.not_eq_true] at h
      simp [List.filter_cons, h, ih, dialogMatches_of_error q d h]

/-- C4: without a target chat id the search always returns a success
envelope whose results are exactly the concatenated records of the dialogs
whose per-conversation search succeeds, in listing order, and whose total
counts only those — a raising conversation is skipped and never aborts the
scan. -/
theorem search_skips_failures (q : String) (ds : List Dialog) :
    (search_global q none ds).1
      = SearchResult.ok q
          (((ds.filter (fun d => outcomeOk q d)).map (dialogMatches q)).flatten)
          (((ds.filter (fun d => outcomeOk q d)).map (dialogMatches q)).flatten).length := by
  rw [flatten_filter_ok]
  simp [search_global, chatIdTruthy]

/-- C5: a present nonzero target chat id matching no listed dialog makes the
search return exactly the not-found error envelope with empty results, and
zero per-conversation search operations are invoked. -/
theorem search_chat_not_found (q : String) (c : Int) (ds : List Dialog)
    (hc : c ≠ 0) (hnone : ∀ d ∈ ds, d.id ≠ c) :
    search_global q (some c) ds
      = (SearchResult.failure ("Chat ID " ++ toString c ++ " not found") [], 0) := by
  have ht : chatIdTruthy (some c) = true := by simp [chatIdTruthy, hc]
  have hfilter : ds.filter (fun d => d.id == c) = [] := by
    rw [List.filter_eq_nil_iff]
    intro d hd
    simpa using hnone d hd
  simp [search_global, ht, hfilter]

/-- C5 witness: chat id 5 is absent from a one-dialog listing, so the call
returns the exact not-found envelope and performs no search. -/
theorem search_chat_not_found_witness :
    search_global "q" (some 5) [⟨3, "t", fun _ => Except.ok []⟩]
      = (SearchResult.failure "Chat ID 5 not found" [], 0) :=
  search_chat_not_found "q" 5 [⟨3, "t", fun _ => Except.ok []⟩]
    (by decide) (by intro d hd; simp at hd; subst hd; decide)

/-- C6: every success envelope of the search and of the scrape has its
`total` field equal to the length of its `results` sequence.  Both embedded
operations are functions of their call arguments alone: each invocation
builds its results from the empty list, so nothing carries over between
runs. -/
theorem totals_match (q : String) (cid : Option Int) (ds : List Dialog)
    (date : String) (stream : List StreamItem) :
    (∀ k rs t, (search_global q cid ds).1 = SearchResult.ok k rs t → t = rs.length)
    ∧ (∀ k rs t, (scrape_saved_messages date stream).1 = ScrapeResult.ok k rs t →
        t = rs.length) := by
  constructor
  · intro k rs t h
    unfold search_global at h
    split at h
    · split at h
      · simp at h
      · simp only [SearchResult.ok.injEq] at h
        obtain ⟨rfl, rfl, rfl⟩ := h
        rfl
    · simp only [SearchResult.ok.injEq] at h
      obtain ⟨rfl, rfl, rfl⟩ := h
      rfl
  · intro k rs t h
    unfold scrape_saved_messages at h
    split at h
    · simp at h
    · split at h
      · simp only [ScrapeResult.ok.injEq] at h
        obtain ⟨rfl, rfl, rfl⟩ := h
        rfl
      · simp at h

/-- C6 witness: a concrete search over one dialog with two matching
messages reports total 2, the length of its results. -/
theorem totals_match_witness : (2 : Nat) = c6Records.length :=
  (totals_match "q" none [c6Dialog] "1970-01-01" []).1 "q" c6Records 2 (by decide)

/-- The records of one dialog are exactly one per guard-passing message. -/
theorem dialogMatches_eq_goodText (q : String) (d : Dialog) :
    dialogMatches q d
      = ((searchMsgs q d).filterMap goodText).map (fun p => toMatchRecord d p.1 p.2) := by
  unfold dialogMatches searchMsgs
  rcases hso : d.searchOutcome q with e | msgs
  · simp
  · rw [List.map_filterMap]
    apply List.filterMap_congr
    intro om _
    cases om with
    | none => rfl
    | some m =>
      rcases ht : m.text with _ | t
      · simp [matchOf, goodText, ht]
      · by_cases he : t.isEmpty <;> simp [matchOf, goodText, ht, he]

/-- C7: the search results contain exactly one record per yielded message
that is present and has non-empty text (missing messages and empty texts
are skipped), and every record's `text` field is exactly the first 500
characters of the source text. -/
theorem search_truncates (q : String) (ds : List Dialog) :
    (search_global q none ds).1
      = SearchResult.ok q
          ((ds.map (fun d => ((searchMsgs q d).filterMap goodText).map
              (fun p => toMatchRecord d p.1 p.2))).flatten)
          ((ds.map (fun d => ((searchMsgs q d).filterMap goodText).map
              (fun p => toMatchRecord d p.1 p.2))).flatten).length
    ∧ ∀ d m t, (toMatchRecord d m t).text = t.take 500 := by
  constructor
  · have hfun : ds.map (dialogMatches q)
        = ds.map (fun d => ((searchMsgs q d).filterMap goodText).map
            (fun p => toMatchRecord d p.1 p.2)) :=
      List.map_congr_left (fun d _ => dialogMatches_eq_goodText q d)
    rw [show (search_global q none ds).1
        = SearchResult.ok q ((ds.map (dialogMatches q)).flatten)
            ((ds.map (dialogMatches q)).flatten.length) from rfl, hfun]
  · intro d m t
    simp [toMatchRecord, sliceTo_eq_take]

/-- C7 witness: a 600-character text yields a record whose text is exactly
its first 500 characters. -/
theorem search_truncates_witness :
    (toMatchRecord ⟨3, "t", fun _ => Except.ok []⟩
        { id := 1, text := some (String.mk (List.replicate 600 'a'))
        , date := none, sender_id := none, out := false, media := none }
        (String.mk (List.replicate 600 'a'))).text
      = (String.mk (List.replicate 600 'a')).take 500 :=
  (search_truncates "q" []).2 ⟨3, "t", fun _ => Except.ok []⟩
    { id := 1, text := some (String.mk (List.replicate 600 'a'))
    , date := none, sender_id := none, out := false, media := none }
    (String.mk (List.replicate 600 'a'))

/-- C9: on every run — normal completion, reported error envelope,
unhandled exception, or user interrupt, whether raised during connect or
during the dispatched action — the external client's disconnect is invoked
exactly once, and it is the last external call before process exit. -/
theorem disconnect_always (c : BodyOutcome) (a : Action) (k j : Nat) (o : BodyOutcome) :
    ((mainRun c a k j o).2.count ExtCall.disconnect = 1)
    ∧ (mainRun c a k j o).2.getLast? = some ExtCall.disconnect := by
  have hfull : ExtCall.disconnect ∉ dispatchFullCalls a k := by
    cases a <;> simp [dispatchFullCalls, List.mem_replicate]
  have htake : ExtCall.disconnect ∉ (dispatchFullCalls a k).take j :=
    fun hmem => hfull (List.take_subset j (dispatchFullCalls a k) hmem)
  cases c with
  | ok =>
    cases o with
    | ok =>
      refine ⟨?_, ?_⟩
      · simp [mainRun, List.count_append, List.count_cons,
          List.count_eq_zero.mpr hfull]
      · simp only [mainRun, ← List.cons_append]
        rw [List.getLast?_concat]
    | interrupt =>
      refine ⟨?_, ?_⟩
      · simp [mainRun, List.count_append, List.count_cons,
          List.count_eq_zero.mpr htake]
      · simp only [mainRun, ← List.cons_append]
        rw [List.getLast?_concat]
    | exc em =>
      refine ⟨?_, ?_⟩
      · simp [mainRun, List.count_append, List.count_cons,
          List.count_eq_zero.mpr htake]
      · simp only [mainRun, ← List.cons_append]
        rw [List.getLast?_concat]
  | interrupt => exact ⟨rfl, rfl⟩
  | exc em => exact ⟨rfl, rfl⟩

/-- C10: a target chat id of exactly 0 is falsy, so the call behaves
exactly as a call with no target: it never enters the given-target branch
(hence never reports not-found) and invokes one per-conversation search for
every listed dialog. -/
theorem search_zero_chat_id (q : String) (ds : List Dialog) :
    search_global q (some 0) ds = search_global q none ds
    ∧ (search_global q (some 0) ds).2 = ds.length := by
  constructor
  · rfl
  · simp [search_global, chatIdTruthy]

end TelegramClient
